import Mathlib

/-!
Verification of the sandbox/container-orchestration subsystem of the
`ds-agent` repository against its natural-language specification.

Bytes are modelled as natural numbers and byte strings as `List Nat`.
The definitions below are shallow embeddings of the Python sources under
`src/app/core/sandbox/`; each definition's doc comment names the source
function it embeds.
-/

deriving instance DecidableEq for Except

namespace DsAgent

/-- Embedding of `DockerService.STREAM_HEADER_SIZE` (docker_client.py line 19):
the multiplexed-stream frame header is 8 bytes. -/
def STREAM_HEADER_SIZE : Nat := 8

/-- Reading `struct.unpack(">BxxxL", header)`s length field: the 4-byte
big-endian unsigned integer at byte offsets 4..7 of the buffer
(utility.py line 27). Offsets past the end read as 0; the callers only use
this when at least 8 bytes are present. -/
def readBE4 (buf : List Nat) : Nat :=
  buf.getD 4 0 * 16777216 + buf.getD 5 0 * 65536 + buf.getD 6 0 * 256 + buf.getD 7 0

/-- State of `StreamParser` (utility.py lines 9..46, identically
stream_parser.py): an internal byte `buffer` plus the accumulated stdout and
stderr bytes (`self._stdout` / `self._stderr`, modelled as the byte lists they
hold). The source's `self.header` field is the constant 8 in every working
instantiation: `struct.unpack(">BxxxL", ...)` requires exactly 8 bytes, and
`DockerService` uses `STREAM_HEADER_SIZE = 8`. -/
structure StreamParser where
  buffer : List Nat
  outStdout : List Nat
  outStderr : List Nat
deriving DecidableEq

namespace StreamParser

/-- Embedding of `StreamParser.__init__`: empty buffer, empty output
accumulators (utility.py lines 10..14). -/
def initial : StreamParser := ⟨[], [], []⟩

/-- One iteration of the `while True` body of `_process_buffer` in the case
where a complete frame is present: route the payload by stream type
(1 = stdout, 2 = stderr, others dropped) and delete the frame from the
buffer (utility.py lines 25..43). -/
def stepFrame (s : StreamParser) : StreamParser :=
  let stream_type := s.buffer.getD 0 0
  let length := readBE4 s.buffer
  let total_frame_size := STREAM_HEADER_SIZE + length
  let payload := (s.buffer.drop STREAM_HEADER_SIZE).take length
  { buffer := s.buffer.drop total_frame_size
    outStdout := if stream_type = 1 then s.outStdout ++ payload else s.outStdout
    outStderr := if stream_type = 2 then s.outStderr ++ payload else s.outStderr }

/-- The `while True` loop of `_process_buffer` (utility.py lines 20..43),
written with explicit fuel: the loop returns when fewer than 8 bytes remain
or the declared frame extends past the buffered data, else it consumes one
complete frame and repeats. Each iteration consumes at least 8 bytes, so
`fuel = buffer.length` always suffices. -/
def process_buffer_go : Nat → StreamParser → StreamParser
  | 0, s => s
  | fuel + 1, s =>
    if s.buffer.length < STREAM_HEADER_SIZE then s
    else if s.buffer.length < STREAM_HEADER_SIZE + readBE4 s.buffer then s
    else process_buffer_go fuel (stepFrame s)

/-- Embedding of `StreamParser._process_buffer` (utility.py lines 20..43). -/
def process_buffer (s : StreamParser) : StreamParser :=
  process_buffer_go s.buffer.length s

/-- Embedding of `StreamParser.feed` (utility.py lines 16..18): append the
chunk to the buffer, then greedily extract complete frames. -/
def feed (s : StreamParser) (data : List Nat) : StreamParser :=
  process_buffer { s with buffer := s.buffer ++ data }

/-- Embedding of `StreamParser.get_output` (utility.py lines 45..46). -/
def get_output (s : StreamParser) : List Nat × List Nat :=
  (s.outStdout, s.outStderr)

/-- Feeding a list of chunks in sequence. -/
def feedAll (s : StreamParser) (chunks : List (List Nat)) : StreamParser :=
  chunks.foldl feed s

/-- Appending raw data to the buffer without processing (the first line of
`feed`). -/
def appendData (s : StreamParser) (d : List Nat) : StreamParser :=
  { s with buffer := s.buffer ++ d }

/-- Invariant claimed of the parser: the internal buffer never holds a
complete frame — either fewer than 8 bytes are buffered, or the declared
frame extends past the buffered data. -/
def no_complete_frame (s : StreamParser) : Prop :=
  s.buffer.length < STREAM_HEADER_SIZE ∨
    s.buffer.length < STREAM_HEADER_SIZE + readBE4 s.buffer

instance (s : StreamParser) : Decidable (no_complete_frame s) := by
  unfold no_complete_frame
  infer_instance

end StreamParser

/-- Validity of a multiplexed stream: a concatenation of complete 8-byte-header
frames. Written with fuel like the loop itself; each frame consumes at least
8 bytes so `fuel = length` suffices. -/
def isValidMuxGo : Nat → List Nat → Bool
  | 0, s => s.isEmpty
  | fuel + 1, s =>
    if s.isEmpty then true
    else if s.length < STREAM_HEADER_SIZE then false
    else if s.length < STREAM_HEADER_SIZE + readBE4 s then false
    else isValidMuxGo fuel (s.drop (STREAM_HEADER_SIZE + readBE4 s))

/-- A byte sequence is a valid multiplexed stream when it splits into a
sequence of complete frames, each an 8-byte header followed by exactly the
declared number of payload bytes. -/
def isValidMux (s : List Nat) : Bool := isValidMuxGo s.length s

/-! Embeddings of docker.py (legacy `DockerClientManager`), docker_client.py
(`DockerService`), manager.py (legacy `Sandbox`), image_manager.py
(`ImageManager`) and the archive helpers of utility.py. -/

/-- Linux errno values for the constants named in docker.py line 19. -/
def EINTR : Nat := 4

def EDEADLK : Nat := 35

def EWOULDBLOCK : Nat := 11

/-- Embedding of `ERRNO_RECOVERABLE = (errno.EINTR, errno.EDEADLK,
errno.EWOULDBLOCK)` (docker.py line 19). -/
def ERRNO_RECOVERABLE : List Nat := [EINTR, EDEADLK, EWOULDBLOCK]

/-- Embedding of `DockerClientManager._socket_read` (docker.py lines
147..155). The raw `os.read` outcome is the parameter: `.error eno` models an
`EnvironmentError` with that errno, `.ok data` a successful read. The result
is `.ok (some data)` for a non-empty read, `.ok none` for a zero-length read
(the Python function falls off the end and returns None), `.ok (some [])`
when a recoverable errno is swallowed (`return b""`), and `.error eno` when
any other errno is re-raised. -/
def socket_read (readResult : Except Nat (List Nat)) : Except Nat (Option (List Nat)) :=
  match readResult with
  | Except.error e =>
    if e ∈ ERRNO_RECOVERABLE then Except.ok (some []) else Except.error e
  | Except.ok data =>
    if data.isEmpty then Except.ok none else Except.ok (some data)

/-- Embedding of `DockerClientManager._socket_write` (docker.py lines
157..163): a recoverable errno is swallowed as 0 bytes written, any other
errno is re-raised, a successful `os.write` returns its count. -/
def socket_write (writeResult : Except Nat Nat) : Except Nat Nat :=
  match writeResult with
  | Except.error e =>
    if e ∈ ERRNO_RECOVERABLE then Except.ok 0 else Except.error e
  | Except.ok n => Except.ok n

/-- Embedding of `CPU_TO_REAL_TIME_FACTOR` (config.py line 11). -/
def CPU_TO_REAL_TIME_FACTOR : Int := 5

/-- A limits dictionary, as an association list in insertion order with
distinct keys (Python dict). -/
abbrev Limits := List (String × Int)

/-- Embedding of `DEFAULT_LIMITS` (docker.py lines 35..40): note the dict
literal contains no "file_size" entry although `ResourceLimits` declares the
field. -/
def DEFAULT_LIMITS : Limits :=
  [("cputime", 1), ("realtime", 5), ("memory", 64), ("processes", -1)]

/-- Python `d[k]` on a dict: the value when present, a KeyError carrying the
key otherwise. -/
def dictIndex (d : Limits) (k : String) : Except String Int :=
  match d.lookup k with
  | some v => Except.ok v
  | none => Except.error k

/-- Python `d[k] = v` on a dict: overwrite in place when present, append
otherwise. -/
def dictSet (d : Limits) (k : String) (v : Int) : Limits :=
  if (d.lookup k).isSome then
    d.map (fun kv => if kv.1 = k then (k, v) else kv)
  else d ++ [(k, v)]

/-- Embedding of `docker.types.Ulimit(name=..., soft=..., hard=...)`. -/
structure Ulimit where
  ulimitName : String
  soft : Int
  hard : Int
deriving DecidableEq

/-- Embedding of `DockerClientManager.create_ulimits` (docker.py lines
92..102): indexes `limits["cputime"]` and `limits["file_size"]` directly, so
a missing key raises KeyError (modelled as `.error key`); a truthy (nonzero)
value adds the corresponding Ulimit; an empty list yields None. -/
def create_ulimits (limits : Limits) : Except String (Option (List Ulimit)) :=
  match dictIndex limits "cputime" with
  | Except.error k => Except.error k
  | Except.ok cpu =>
    let ul1 : List Ulimit := if cpu ≠ 0 then [⟨"cpu", cpu, cpu⟩] else []
    match dictIndex limits "file_size" with
    | Except.error k => Except.error k
    | Except.ok fsize =>
      let ul2 := ul1 ++ (if fsize ≠ 0 then [⟨"fsize", fsize, fsize⟩] else [])
      Except.ok (if ul2.isEmpty then none else some ul2)

/-- Embedding of `DockerClientManager.merge_limits_defaults` (docker.py lines
104..116). `none` models passing Python None; an empty dict is also falsy and
returns `DEFAULT_LIMITS` unchanged. Otherwise missing defaults are appended
in `DEFAULT_LIMITS` order and, when "realtime" was not originally given, it
is set to `limits["cputime"] * CPU_TO_REAL_TIME_FACTOR` ("cputime" is always
present after the merge, so the 0 fallback below is unreachable). -/
def merge_limits_defaults (limits : Option Limits) : Limits :=
  match limits with
  | none => DEFAULT_LIMITS
  | some l =>
    if l.isEmpty then DEFAULT_LIMITS
    else
      let is_realtime_specified := (l.lookup "realtime").isSome
      let merged := DEFAULT_LIMITS.foldl
        (fun acc kv => if (acc.lookup kv.1).isSome then acc else acc ++ [kv]) l
      if is_realtime_specified then merged
      else
        let cpu := match merged.lookup "cputime" with
          | some v => v
          | none => 0
        dictSet merged "realtime" (cpu * CPU_TO_REAL_TIME_FACTOR)

/-- Daemon control-API operations a DockerService method can perform. -/
inductive DockerOp where
  | execCreate
  | execStart
  | execInspect
  | containerKill
  | containerRemoveForce
  | putArchive
  | getArchive
deriving DecidableEq

/-- An exception value at the embedding boundary: the Python exception type
name and its message. exceptions.py (lines 1..9) defines `SandboxError`,
`ResourceLimitExceeded` and `DockerOperationsError` — and no other exception
type (in particular no `ImageBuildError`). -/
structure PyExc where
  ty : String
  msg : String
deriving DecidableEq

/-- Raising `DockerOperationsError(msg)` (exceptions.py lines 7..8). -/
def DockerOperationsErrorExc (msg : String) : PyExc :=
  ⟨"DockerOperationsError", msg⟩

/-- The ExecutionResult dictionary the I/O loop of exec_command would
return (docker_client.py lines 131..137; the wall-clock `duration` field is
not modelled). No invocation ever produces it: see `exec_command`. -/
structure ExecResult where
  stdout : List Nat
  stderr : List Nat
  exit_code : Option Int
  timed_out : Bool
deriving DecidableEq

/-- The TypeError raised by the call `parser = StreamParser()`
(docker_client.py line 85): both StreamParser definitions declare
`__init__(self, header)` with a required positional `header` argument, and
DockerService passes none — its own `STREAM_HEADER_SIZE = 8` constant is
never used. The call therefore raises TypeError unconditionally. -/
def streamParserNoArgTypeError : PyExc :=
  ⟨"TypeError", "StreamParser.__init__() missing 1 required positional argument: header"⟩

/-- Embedding of DockerService.exec_command (docker_client.py lines 54..137).
The exec-create/exec-start/socket setup outcome is the parameter `api`: an
APIError there is wrapped in DockerOperationsError (lines 62..83). When setup
succeeds, the next statement executed is `parser = StreamParser()` (line 85),
which raises TypeError unconditionally — before the try/finally and before
the `while True` I/O loop (lines 91..119) — so the function never reaches
the loop, never checks the deadline, and never returns a result dictionary.
The remaining arguments mirror the source signature and cannot influence the
outcome. -/
def exec_command (api : Except String Unit) (cmd : List String)
    (stdin : Option (List Nat)) (timeout : Nat) : Except PyExc ExecResult :=
  match api, cmd, stdin, timeout with
  | Except.error e, _, _, _ =>
    Except.error (DockerOperationsErrorExc ("exec create failed: " ++ e))
  | Except.ok _, _, _, _ => Except.error streamParserNoArgTypeError

/-- Embedding of DockerService.remove_container (docker_client.py lines
153..157): performs `container.remove(force=True)`; every exception is caught
and logged (returned as the second component), never re-raised. -/
def remove_container (removeOutcome : Except String Unit) :
    List DockerOp × Option String :=
  ([DockerOp.containerRemoveForce],
    match removeOutcome with
    | Except.error e => some e
    | Except.ok _ => none)

/-- Embedding of the legacy `Sandbox` class (manager.py lines 23..37):
fields `id_`, `container` (abstracted to a numeric handle) and
`realtime_limit`. -/
structure Sandbox where
  id_ : String
  container : Nat
  realtime_limit : Option Int
deriving DecidableEq

/-- Embedding of `Sandbox.__enter__` (manager.py lines 29..30): returns
self. -/
def Sandbox.enter (s : Sandbox) : Sandbox := s

/-- Embedding of `Sandbox.__exit__` (manager.py lines 32..34): the body is
`pass` — the call `destroy(self)` is commented out — so scope exit performs
no daemon operation and leaves the sandbox unchanged, for normal return and
for every exception (`*args`, here the optional exception information). -/
def Sandbox.scopeExit (s : Sandbox) (_args : Option PyExc) : Sandbox × List DockerOp :=
  (s, [])

/-- Profile of the later design. Modelled from the spec: the later-design
`Profile` class is not under src/ (config.py holds only the legacy Profile
with docker_image/command fields); the fields here are the ones read by
DockerService.spawn_container and ImageManager, as listed in §3 of the
spec. -/
structure ProfileSpec where
  profileName : String
  image : String
  base_image : String
  system_packages : List String
  python_packages : List String
  user : String
  read_only : Bool
  network_disabled : Bool
  mem_limit_mb : Nat
  cpu_period : Nat
  cpu_quota : Nat
  env : List (String × String)
deriving DecidableEq

/-- Modelled from the spec: the later-design `SandboxConfig` (daemon URL and
timeout omitted — not read by the embedded operations), holding the working
directory, the session TTL and the profile registry (§3, §4.1). -/
structure SandboxConfigSpec where
  workdir : String
  max_session_ttl : Nat
  profiles : List (String × ProfileSpec)
deriving DecidableEq

/-- Modelled from the spec: `SandboxConfig.get_profile(name)` "fails with
ProfileNotFound if absent" (§4.1); the class itself is not under src/. -/
def get_profile (cfg : SandboxConfigSpec) (nm : String) : Except PyExc ProfileSpec :=
  match cfg.profiles.lookup nm with
  | some p => Except.ok p
  | none => Except.error ⟨"ProfileNotFound", nm⟩

/-- The keyword arguments DockerService.spawn_container passes to
`client.containers.run` (docker_client.py lines 34..48). `memswap_limit` is
Option-valued to record whether a swap limit is passed at all: the source
passes none (contrast manager.py line 102, where the legacy path passes
`memswap_limit=mem_limit`). -/
structure ContainerRunArgs where
  image : String
  command : String
  runName : String
  detach : Bool
  user : String
  working_dir : String
  network_disabled : Bool
  read_only : Bool
  mem_limit : String
  memswap_limit : Option String
  cpu_period : Nat
  cpu_quota : Nat
  environment : List (String × String)
  auto_remove : Bool
deriving DecidableEq

/-- The run arguments spawn_container builds from its inputs
(docker_client.py lines 34..48). -/
def spawn_args (cfg : SandboxConfigSpec) (nm : String) (profile : ProfileSpec)
    (workdir : String) : ContainerRunArgs :=
  { image := profile.image
    command := "sleep " ++ toString cfg.max_session_ttl
    runName := nm
    detach := true
    user := profile.user
    working_dir := workdir
    network_disabled := profile.network_disabled
    read_only := profile.read_only
    mem_limit := toString profile.mem_limit_mb ++ "m"
    memswap_limit := none
    cpu_period := profile.cpu_period
    cpu_quota := profile.cpu_quota
    environment := profile.env
    auto_remove := true }

/-- Embedding of DockerService.spawn_container (docker_client.py lines
32..52). The daemon's create-and-start outcome is the parameter `api`:
`.ok h` is the created container handle, `.error e` an APIError whose
message is `e`. On success the handle is returned together with the exact
run arguments passed; an APIError is wrapped in DockerOperationsError. -/
def spawn_container (cfg : SandboxConfigSpec) (nm : String) (profile : ProfileSpec)
    (workdir : String) (api : Except String Nat) :
    Except PyExc (Nat × ContainerRunArgs) :=
  match api with
  | Except.ok h => Except.ok (h, spawn_args cfg nm profile workdir)
  | Except.error e =>
    Except.error (DockerOperationsErrorExc ("failed to spawn container: " ++ e))

/-- Embedding of ImageManager._generate_dockerfile (image_manager.py lines
16..45): the deterministic recipe, one line per step, in the source's fixed
order. -/
def generate_dockerfile (cfg : SandboxConfigSpec) (profile : ProfileSpec) : String :=
  let workdir := cfg.workdir
  let user := profile.user
  let sys_deps_str := " ".intercalate profile.system_packages
  let py_deps_str := " ".intercalate profile.python_packages
  let l1 := ["FROM " ++ profile.base_image]
  let l2 := if user ≠ "root" then
      l1 ++ ["RUN groupadd -r " ++ user ++ " && useradd -r -g " ++ user ++ " " ++ user]
    else l1
  let l3 := if !profile.system_packages.isEmpty then
      l2 ++ ["RUN apt-get update && apt-get install -y --no-install-recommends "
        ++ sys_deps_str ++ " && rm -rf /var/lib/apt/lists/*"]
    else l2
  let l4 := if !profile.python_packages.isEmpty then
      l3 ++ ["RUN pip install --no-cache-dir " ++ py_deps_str]
    else l3
  let l5 := l4 ++ ["WORKDIR " ++ workdir]
  let l6 := if user ≠ "root" then
      l5 ++ ["RUN chown -R " ++ user ++ ":" ++ user ++ " " ++ workdir, "USER " ++ user]
    else l5
  let l7 := l6 ++ ["CMD [\"python3\"]"]
  "\n".intercalate l7

/-- Outcome of one ImageManager.build_profile call: the returned tag, the
daemon's image-tag store after the call, and how many build operations were
performed. -/
structure BuildResult where
  tag : String
  daemon : List String
  builds : Nat
deriving DecidableEq

/-- Embedding of ImageManager.build_profile (image_manager.py lines 47..79).
The daemon is abstracted to the list of image tags it holds:
`images.get(tag)` succeeds exactly when the tag is present (a failed get of
any kind is caught by the blanket `except` and falls through to building),
and a successful `images.build` adds the tag. `buildOutcome` is the build
result the daemon would produce; a failed build is re-raised as the raw
underlying exception (`raise e`, line 79) — exceptions.py defines no
ImageBuildError to wrap it in. -/
def build_profile (cfg : SandboxConfigSpec) (daemon : List String)
    (profile_name : String) (force_rebuild : Bool)
    (buildOutcome : Except PyExc Unit) : Except PyExc BuildResult :=
  match get_profile cfg profile_name with
  | Except.error e => Except.error e
  | Except.ok profile =>
    let tag := profile.image
    if !force_rebuild && daemon.contains tag then
      Except.ok ⟨tag, daemon, 0⟩
    else
      match buildOutcome with
      | Except.ok _ => Except.ok ⟨tag, daemon ++ [tag], 1⟩
      | Except.error e => Except.error e

/-- File content as given to create_archive: str or bytes (utility.py line
49, `Union[str, bytes]`). -/
inductive FileContent where
  | str (s : String)
  | bytes (b : List Nat)
deriving DecidableEq

/-- String content is encoded as UTF-8 bytes (`content.encode("utf-8")`,
utility.py lines 56..57); bytes pass through unchanged. -/
def encodeContent : FileContent → List Nat
  | FileContent.str s => s.toUTF8.toList.map (fun b => b.toNat)
  | FileContent.bytes b => b

/-- One element of the `files` list given to create_archive: a dict with
"name" and "content" entries. -/
structure FileEntry where
  name : String
  content : FileContent
deriving DecidableEq

/-- A tar member as produced by `tarfile.TarInfo(name=name)` plus
`addfile(info, io.BytesIO(content))`: the default TarInfo type is REGTYPE
(a regular file), `size` is `len(content)`, and the member carries the
content bytes. The byte-level tar serialization and the mtime stamp belong
to the tarfile library and are abstracted: an archive is its member list in
insertion order. -/
structure TarMember where
  name : String
  isfile : Bool
  content : List Nat
deriving DecidableEq

/-- An in-memory archive, as the ordered list of its members. -/
abbrev Archive := List TarMember

/-- Embedding of create_archive (utility.py lines 49..65): one regular-file
member per entry, in order, holding the (encoded) content bytes. -/
def create_archive (files : List FileEntry) : Archive :=
  files.map (fun f => ⟨f.name, true, encodeContent f.content⟩)

/-- Embedding of extract_file_from_archive (utility.py lines 68..78).
`tar.getmember(filename)` returns the last member with that name and raises
KeyError when absent, which the source converts to FileNotFoundError; a
non-regular member also raises FileNotFoundError. Errors carry the source's
message strings. -/
def extract_file_from_archive (ar : Archive) (filename : String) :
    Except String (List Nat) :=
  match ar.reverse.find? (fun m => m.name == filename) with
  | none => Except.error ("file " ++ filename ++ " not found in archive")
  | some m =>
    if m.isfile then Except.ok m.content
    else Except.error (filename ++ " is not a regular file")

/-! Concrete sample inputs used by witnesses and counterexamples. -/

/-- A sample later-design profile (a data-science image). -/
def sampleProfile : ProfileSpec :=
  { profileName := "ds"
    image := "ds:latest"
    base_image := "python:3.11-slim"
    system_packages := ["build-essential"]
    python_packages := ["pandas", "numpy"]
    user := "sandboxuser"
    read_only := false
    network_disabled := true
    mem_limit_mb := 512
    cpu_period := 100000
    cpu_quota := 50000
    env := [("PYTHONUNBUFFERED", "1")] }

/-- A sample configuration registering `sampleProfile` under "ds". -/
def sampleConfig : SandboxConfigSpec :=
  { workdir := "/sandbox"
    max_session_ttl := 3600
    profiles := [("ds", sampleProfile)] }

namespace StreamParser

theorem stepFrame_buffer (s : StreamParser) :
    (stepFrame s).buffer = s.buffer.drop (STREAM_HEADER_SIZE + readBE4 s.buffer) := rfl

theorem appendData_buffer (s : StreamParser) (d : List Nat) :
    (appendData s d).buffer = s.buffer ++ d := rfl

theorem appendData_appendData (s : StreamParser) (a b : List Nat) :
    appendData (appendData s a) b = appendData s (a ++ b) := by
  simp [appendData, List.append_assoc]

/-- The fuel-indexed loop never grows the buffer. -/
theorem process_buffer_go_buffer_length :
    ∀ (fuel : Nat) (s : StreamParser),
      (process_buffer_go fuel s).buffer.length ≤ s.buffer.length := by
  intro fuel
  induction fuel with
  | zero => intro s; simp [process_buffer_go]
  | succ f ih =>
    intro s
    by_cases h1 : s.buffer.length < STREAM_HEADER_SIZE
    · simp [process_buffer_go, h1]
    · by_cases h2 : s.buffer.length < STREAM_HEADER_SIZE + readBE4 s.buffer
      · simp [process_buffer_go, h1, h2]
      · have := ih (stepFrame s)
        simp only [process_buffer_go, h1, h2, if_false]
        refine le_trans this ?_
        simp [stepFrame_buffer, List.length_drop]

/-- The result of the loop does not depend on the fuel, as long as the fuel
is at least the buffer length. -/
theorem process_buffer_go_fuel_irrel :
    ∀ (f1 : Nat) (s : StreamParser) (f2 : Nat),
      s.buffer.length ≤ f1 → s.buffer.length ≤ f2 →
      process_buffer_go f1 s = process_buffer_go f2 s := by
  intro f1
  induction f1 with
  | zero =>
    intro s f2 h1 _
    have hb : s.buffer.length = 0 := Nat.le_zero.mp h1
    cases f2 with
    | zero => rfl
    | succ g =>
      have : s.buffer.length < STREAM_HEADER_SIZE := by
        rw [hb]; decide
      simp [process_buffer_go, this]
  | succ f ih =>
    intro s f2 h1 h2
    cases f2 with
    | zero =>
      have hb : s.buffer.length = 0 := Nat.le_zero.mp h2
      have : s.buffer.length < STREAM_HEADER_SIZE := by
        rw [hb]; decide
      simp [process_buffer_go, this]
    | succ g =>
      by_cases hc1 : s.buffer.length < STREAM_HEADER_SIZE
      · simp [process_buffer_go, hc1]
      · by_cases hc2 : s.buffer.length < STREAM_HEADER_SIZE + readBE4 s.buffer
        · simp [process_buffer_go, hc1, hc2]
        · have hlen : (stepFrame s).buffer.length
              = s.buffer.length - (STREAM_HEADER_SIZE + readBE4 s.buffer) := by
            simp [stepFrame_buffer, List.length_drop]
          have h8 : STREAM_HEADER_SIZE ≤ s.buffer.length := Nat.le_of_not_lt hc1
          have hd : STREAM_HEADER_SIZE = 8 := rfl
          have hf : (stepFrame s).buffer.length ≤ f := by omega
          have hg : (stepFrame s).buffer.length ≤ g := by omega
          simp only [process_buffer_go, hc1, hc2, if_false]
          exact ih (stepFrame s) g hf hg

theorem readBE4_append {a : List Nat} (b : List Nat)
    (h : STREAM_HEADER_SIZE ≤ a.length) : readBE4 (a ++ b) = readBE4 a := by
  have hd : STREAM_HEADER_SIZE = 8 := rfl
  unfold readBE4
  rw [List.getD_append _ _ _ _ (by omega), List.getD_append _ _ _ _ (by omega),
    List.getD_append _ _ _ _ (by omega), List.getD_append _ _ _ _ (by omega)]

/-- When the buffer holds a complete frame, consuming it commutes with
appending further data to the buffer. -/
theorem stepFrame_appendData (s : StreamParser) (b : List Nat)
    (h8 : STREAM_HEADER_SIZE ≤ s.buffer.length)
    (hc : STREAM_HEADER_SIZE + readBE4 s.buffer ≤ s.buffer.length) :
    stepFrame (appendData s b) = appendData (stepFrame s) b := by
  have hread : readBE4 (s.buffer ++ b) = readBE4 s.buffer := readBE4_append b h8
  have hget0 : (s.buffer ++ b).getD 0 0 = s.buffer.getD 0 0 := by
    have hd : STREAM_HEADER_SIZE = 8 := rfl
    exact List.getD_append _ _ _ _ (by omega)
  have hdrop8 : (s.buffer ++ b).drop STREAM_HEADER_SIZE
      = s.buffer.drop STREAM_HEADER_SIZE ++ b :=
    List.drop_append_of_le_length h8
  have hdropT : (s.buffer ++ b).drop (STREAM_HEADER_SIZE + readBE4 s.buffer)
      = s.buffer.drop (STREAM_HEADER_SIZE + readBE4 s.buffer) ++ b :=
    List.drop_append_of_le_length hc
  have htake : (s.buffer.drop STREAM_HEADER_SIZE ++ b).take (readBE4 s.buffer)
      = (s.buffer.drop STREAM_HEADER_SIZE).take (readBE4 s.buffer) := by
    apply List.take_append_of_le_length
    rw [List.length_drop]
    omega
  simp only [stepFrame, appendData, hread, hget0, hdrop8, hdropT, htake]

/-- Core lemma for chunk-boundary independence: running the frame-extraction
loop, appending more data, and running the loop again gives the same state as
appending the data first and running the loop once. -/
theorem process_buffer_go_appendData :
    ∀ (fuel : Nat) (s : StreamParser) (b : List Nat),
      s.buffer.length ≤ fuel →
      process_buffer_go (fuel + b.length) (appendData (process_buffer_go fuel s) b)
        = process_buffer_go (fuel + b.length) (appendData s b) := by
  intro fuel
  induction fuel with
  | zero =>
    intro s b h1
    simp [process_buffer_go]
  | succ f ih =>
    intro s b h1
    by_cases hc1 : s.buffer.length < STREAM_HEADER_SIZE
    · simp [process_buffer_go, hc1]
    · by_cases hc2 : s.buffer.length < STREAM_HEADER_SIZE + readBE4 s.buffer
      · simp [process_buffer_go, hc1, hc2]
      · have h8 : STREAM_HEADER_SIZE ≤ s.buffer.length := Nat.le_of_not_lt hc1
        have hcomp : STREAM_HEADER_SIZE + readBE4 s.buffer ≤ s.buffer.length :=
          Nat.le_of_not_lt hc2
        have hd : STREAM_HEADER_SIZE = 8 := rfl
        have hlen : (stepFrame s).buffer.length
            = s.buffer.length - (STREAM_HEADER_SIZE + readBE4 s.buffer) := by
          simp [stepFrame_buffer, List.length_drop]
        have hstep : process_buffer_go (f + 1) s = process_buffer_go f (stepFrame s) := by
          simp [process_buffer_go, hc1, hc2]
        -- the appended state also sees the same complete frame first
        have hblen : (appendData s b).buffer.length = s.buffer.length + b.length := by
          simp [appendData]
        have hread : readBE4 (appendData s b).buffer = readBE4 s.buffer := by
          simpa [appendData] using readBE4_append (a := s.buffer) b h8
        have hac1 : ¬ (appendData s b).buffer.length < STREAM_HEADER_SIZE := by
          omega
        have hac2 : ¬ (appendData s b).buffer.length
            < STREAM_HEADER_SIZE + readBE4 (appendData s b).buffer := by
          rw [hread]; omega
        have hstep2 : process_buffer_go (f + 1 + b.length) (appendData s b)
            = process_buffer_go (f + b.length) (stepFrame (appendData s b)) := by
          have : f + 1 + b.length = (f + b.length) + 1 := by omega
          rw [this]
          simp [process_buffer_go, hac1, hac2]
        rw [hstep, hstep2, stepFrame_appendData s b h8 hcomp]
        have hf : (stepFrame s).buffer.length ≤ f := by omega
        calc process_buffer_go (f + 1 + b.length)
              (appendData (process_buffer_go f (stepFrame s)) b)
            = process_buffer_go (f + b.length)
              (appendData (process_buffer_go f (stepFrame s)) b) := by
              apply process_buffer_go_fuel_irrel
              · have hle := process_buffer_go_buffer_length f (stepFrame s)
                simp only [appendData, List.length_append]
                omega
              · have hle := process_buffer_go_buffer_length f (stepFrame s)
                simp only [appendData, List.length_append]
                omega
          _ = process_buffer_go (f + b.length) (appendData (stepFrame s) b) :=
              ih (stepFrame s) b hf

/-- Feeding two chunks in sequence equals feeding their concatenation. -/
theorem feed_feed (s : StreamParser) (a b : List Nat) :
    feed (feed s a) b = feed s (a ++ b) := by
  unfold feed process_buffer
  have h1 : ({ s with buffer := s.buffer ++ a } : StreamParser) = appendData s a := rfl
  have h2 : ({ s with buffer := s.buffer ++ (a ++ b) } : StreamParser)
      = appendData s (a ++ b) := rfl
  rw [h1, h2, ← appendData_appendData]
  set t := appendData s a with ht
  have hkey := process_buffer_go_appendData t.buffer.length t b le_rfl
  set u := process_buffer_go t.buffer.length t with hu
  have h3 : ({ u with buffer := u.buffer ++ b } : StreamParser) = appendData u b := rfl
  rw [h3]
  have h4 : (appendData u b).buffer.length ≤ t.buffer.length + b.length := by
    have hle := process_buffer_go_buffer_length t.buffer.length t
    rw [← hu] at hle
    simp only [appendData, List.length_append]
    omega
  have h5 : (appendData t b).buffer.length = t.buffer.length + b.length := by
    simp [appendData]
  rw [process_buffer_go_fuel_irrel (appendData u b).buffer.length (appendData u b)
    (t.buffer.length + b.length) le_rfl h4]
  rw [hkey]
  exact (process_buffer_go_fuel_irrel (t.buffer.length + b.length) (appendData t b)
    (appendData t b).buffer.length (by omega) le_rfl)

theorem feedAll_of_feed (s : StreamParser) :
    ∀ (chunks : List (List Nat)) (a : List Nat),
      feedAll (feed s a) chunks = feed s (a ++ chunks.join) := by
  intro chunks
  induction chunks with
  | nil => intro a; simp [feedAll]
  | cons c cs ih =>
    intro a
    have h1 : feedAll (feed s a) (c :: cs) = feedAll (feed (feed s a) c) cs := rfl
    rw [h1, feed_feed, ih]
    simp [List.append_assoc]

theorem feed_initial_nil : feed initial [] = initial := rfl

/-- Feeding any list of chunks to a fresh parser equals feeding their
concatenation in one call. -/
theorem feedAll_eq_feed_join (chunks : List (List Nat)) :
    feedAll initial chunks = feed initial chunks.join := by
  cases chunks with
  | nil => simp [feedAll, feed_initial_nil]
  | cons c cs =>
    have h1 : feedAll initial (c :: cs) = feedAll (feed initial c) cs := rfl
    rw [h1, feedAll_of_feed]
    rfl


/-- The frame-extraction loop always stops in a state whose buffer holds no
complete frame. -/
theorem process_buffer_go_no_complete :
    ∀ (fuel : Nat) (s : StreamParser), s.buffer.length ≤ fuel →
      no_complete_frame (process_buffer_go fuel s) := by
  intro fuel
  induction fuel with
  | zero =>
    intro s h
    have hb : s.buffer.length = 0 := Nat.le_zero.mp h
    left
    simp only [process_buffer_go]
    rw [hb]; decide
  | succ f ih =>
    intro s h
    by_cases hc1 : s.buffer.length < STREAM_HEADER_SIZE
    · simp only [process_buffer_go, hc1, if_true]
      exact Or.inl hc1
    · by_cases hc2 : s.buffer.length < STREAM_HEADER_SIZE + readBE4 s.buffer
      · simp only [process_buffer_go, hc1, if_false, hc2, if_true]
        exact Or.inr hc2
      · simp only [process_buffer_go, hc1, hc2, if_false]
        apply ih
        have hlen : (stepFrame s).buffer.length
            = s.buffer.length - (STREAM_HEADER_SIZE + readBE4 s.buffer) := by
          simp [stepFrame_buffer, List.length_drop]
        have hd : STREAM_HEADER_SIZE = 8 := rfl
        omega

theorem feed_no_complete (s : StreamParser) (d : List Nat) :
    no_complete_frame (feed s d) :=
  process_buffer_go_no_complete _ _ le_rfl

theorem feedAll_no_complete :
    ∀ (chunks : List (List Nat)) (s : StreamParser),
      no_complete_frame s → no_complete_frame (feedAll s chunks) := by
  intro chunks
  induction chunks with
  | nil => intro s h; exact h
  | cons c cs ih =>
    intro s _
    exact ih (feed s c) (feed_no_complete s c)

end StreamParser

/-- C1: for every byte sequence S that is a valid multiplexed stream and every
way of splitting S into a list of chunks, feeding the chunks sequentially to a
fresh StreamParser via feed and then calling get_output yields exactly the same
(stdout, stderr) pair as feeding all of S in a single feed call. -/
theorem c1_stream_chunk_boundary_independence
    (S : List Nat) (chunks : List (List Nat))
    (hS : isValidMux S = true) (hsplit : chunks.join = S) :
    StreamParser.get_output (StreamParser.feedAll StreamParser.initial chunks)
      = StreamParser.get_output (StreamParser.feed StreamParser.initial S) := by
  subst hsplit
  rw [StreamParser.feedAll_eq_feed_join]

/-- Witness for C1 at a concrete input: a stream of one stdout frame (payload
"AB") and one stderr frame (payload "C"), split into four chunks that cut both
frames mid-header and mid-payload. -/
theorem c1_witness :
    isValidMux [1, 0, 0, 0, 0, 0, 0, 2, 65, 66, 2, 0, 0, 0, 0, 0, 0, 1, 67] = true ∧
    [[1, 0, 0, 0, 0], [0, 0, 2, 65], [66, 2, 0, 0, 0, 0, 0, 0], [1, 67]].join
        = [1, 0, 0, 0, 0, 0, 0, 2, 65, 66, 2, 0, 0, 0, 0, 0, 0, 1, 67] ∧
    StreamParser.get_output (StreamParser.feedAll StreamParser.initial
        [[1, 0, 0, 0, 0], [0, 0, 2, 65], [66, 2, 0, 0, 0, 0, 0, 0], [1, 67]])
      = StreamParser.get_output (StreamParser.feed StreamParser.initial
        [1, 0, 0, 0, 0, 0, 0, 2, 65, 66, 2, 0, 0, 0, 0, 0, 0, 1, 67]) :=
  ⟨by decide, by decide,
    c1_stream_chunk_boundary_independence _ _ (by decide) (by decide)⟩

/-- C9: after every sequence of feed calls on a fresh StreamParser, the
internal buffer never contains a complete frame: either its length is below
the 8-byte header size, or the declared payload length makes the frame extend
past the buffered data. -/
theorem c9_buffer_never_holds_complete_frame (chunks : List (List Nat)) :
    StreamParser.no_complete_frame (StreamParser.feedAll StreamParser.initial chunks) :=
  StreamParser.feedAll_no_complete chunks StreamParser.initial (Or.inl (by decide))

/-- In an archive whose member names are distinct, looking up the last member
with a given name (as tar.getmember does) finds exactly the member carrying
that name. -/
theorem archive_find_last :
    ∀ (ar : Archive) (m : TarMember),
      ((ar.map (fun x => x.name)).Nodup) → m ∈ ar →
      ar.reverse.find? (fun x => x.name == m.name) = some m := by
  intro ar
  induction ar with
  | nil => intro m _ hm; exact absurd hm (List.not_mem_nil m)
  | cons a l ih =>
    intro m hd hm
    rw [List.map_cons] at hd
    have hd' := List.nodup_cons.mp hd
    rw [List.reverse_cons, List.find?_append]
    rcases List.mem_cons.mp hm with h1 | h1
    · subst h1
      have hnone : l.reverse.find? (fun x => x.name == m.name) = none := by
        apply List.find?_eq_none.mpr
        intro x hx
        have hxl : x ∈ l := List.mem_reverse.mp hx
        have : x.name ≠ m.name := by
          intro hcontra
          exact hd'.1 (hcontra ▸ List.mem_map_of_mem (fun y => y.name) hxl)
        simpa using this
      rw [hnone]
      simp [List.find?]
    · rw [ih m hd'.2 h1]
      rfl

/-- The container-configuration part of C4 packaged over spawn_args, plus the
spawn_container behaviour as a function of the daemon outcome. -/
theorem spawn_container_eq (cfg : SandboxConfigSpec) (nm : String) (p : ProfileSpec)
    (wd : String) (api : Except String Nat) :
    spawn_container cfg nm p wd api = (match api with
      | Except.ok h => Except.ok (h, spawn_args cfg nm p wd)
      | Except.error e =>
        Except.error (DockerOperationsErrorExc ("failed to spawn container: " ++ e))) := by
  cases api <;> rfl

/-! Claim theorems C2..C8 and C10. -/

/-- C2: evaluation of the code the claim describes — every exec_command
invocation whose exec/attach setup succeeds raises TypeError at
`parser = StreamParser()` (docker_client.py line 85), before the I/O loop:
no invocation ever reaches the wall-clock deadline, returns a timed-out
result with accumulated output, or kills the container. -/
theorem c2_exec_command_always_raises_typeerror
    (cmd : List String) (stdin : Option (List Nat)) (timeout : Nat) :
    exec_command (Except.ok ()) cmd stdin timeout
      = Except.error streamParserNoArgTypeError := rfl

/-- C3: evaluation of the code the claim describes — `Sandbox.__exit__`
(manager.py lines 32..34) has an empty body (`destroy(self)` is commented
out), so leaving the scope performs no daemon operation at all and leaves
the Sandbox unchanged, both on normal return and on an exception. -/
theorem c3_scope_exit_performs_no_cleanup (s : Sandbox) (exc : Option PyExc) :
    Sandbox.scopeExit s exc = (s, ([] : List DockerOp)) := rfl

/-- C4 (amended): spawn_container creates and starts a container with the
profile's user, working directory, network-disabled flag, read-only flag,
memory limit, CPU period/quota, environment, and auto-removal on stop, and
raises DockerOperationsError exactly when the daemon call fails — but it
passes no matching swap limit: no memswap_limit argument is given. -/
theorem c4_spawn_container_config
    (cfg : SandboxConfigSpec) (nm : String) (p : ProfileSpec) (wd : String)
    (api : Except String Nat) :
    (spawn_args cfg nm p wd).image = p.image ∧
    (spawn_args cfg nm p wd).user = p.user ∧
    (spawn_args cfg nm p wd).working_dir = wd ∧
    (spawn_args cfg nm p wd).network_disabled = p.network_disabled ∧
    (spawn_args cfg nm p wd).read_only = p.read_only ∧
    (spawn_args cfg nm p wd).mem_limit = toString p.mem_limit_mb ++ "m" ∧
    (spawn_args cfg nm p wd).memswap_limit = none ∧
    (spawn_args cfg nm p wd).cpu_period = p.cpu_period ∧
    (spawn_args cfg nm p wd).cpu_quota = p.cpu_quota ∧
    (spawn_args cfg nm p wd).environment = p.env ∧
    (spawn_args cfg nm p wd).auto_remove = true ∧
    spawn_container cfg nm p wd api = (match api with
      | Except.ok h => Except.ok (h, spawn_args cfg nm p wd)
      | Except.error e =>
        Except.error (DockerOperationsErrorExc ("failed to spawn container: " ++ e))) :=
  ⟨rfl, rfl, rfl, rfl, rfl, rfl, rfl, rfl, rfl, rfl, rfl,
    spawn_container_eq cfg nm p wd api⟩

/-- Counterexample to C4 as stated: at a concrete profile with a 512 MB
memory limit, the run arguments pass mem_limit "512m" but no swap limit at
all — memswap_limit is absent, not matched to the memory limit (contrast the
legacy manager.py line 102). -/
theorem c4_counterexample :
    (spawn_args sampleConfig "agentic-sandbox-1" sampleProfile "/sandbox").mem_limit
        = "512m" ∧
    (spawn_args sampleConfig "agentic-sandbox-1" sampleProfile "/sandbox").memswap_limit
        = none := by
  constructor
  · rfl
  · rfl

/-- C5: build_profile without force_rebuild returns immediately with zero
builds when the tag exists at the daemon; and starting from a daemon without
the tag, two successive calls perform exactly one build in total (the second
call is a no-op against the tag added by the first). -/
theorem c5_build_profile_idempotent
    (cfg : SandboxConfigSpec) (daemon : List String) (nm : String) (p : ProfileSpec)
    (b b2 : Except PyExc Unit)
    (hp : get_profile cfg nm = Except.ok p) :
    (daemon.contains p.image = true →
      build_profile cfg daemon nm false b = Except.ok ⟨p.image, daemon, 0⟩) ∧
    (daemon.contains p.image = false → b = Except.ok () →
      build_profile cfg daemon nm false b = Except.ok ⟨p.image, daemon ++ [p.image], 1⟩ ∧
      build_profile cfg (daemon ++ [p.image]) nm false b2
        = Except.ok ⟨p.image, daemon ++ [p.image], 0⟩) := by
  constructor
  · intro hc
    unfold build_profile
    simp only [hp]
    rw [Bool.not_false, Bool.true_and, hc, if_pos rfl]
  · intro hc hb
    constructor
    · unfold build_profile
      simp only [hp, hb]
      rw [Bool.not_false, Bool.true_and, hc, if_neg Bool.false_ne_true]
    · unfold build_profile
      simp only [hp]
      have hmem : (daemon ++ [p.image]).contains p.image = true := by
        have hin : p.image ∈ daemon ++ [p.image] :=
          List.mem_append_right _ (by simp)
        exact List.elem_eq_true_of_mem hin
      rw [Bool.not_false, Bool.true_and, hmem, if_pos rfl]

/-- Witness for C5 at concrete inputs: with the tag present, zero builds;
starting from an empty daemon, the first call builds once and the second is
a no-op. -/
theorem c5_witness :
    build_profile sampleConfig ["ds:latest"] "ds" false (Except.ok ())
        = Except.ok ⟨"ds:latest", ["ds:latest"], 0⟩ ∧
    build_profile sampleConfig [] "ds" false (Except.ok ())
        = Except.ok ⟨"ds:latest", ["ds:latest"], 1⟩ ∧
    build_profile sampleConfig ["ds:latest"] "ds" false (Except.ok ())
        = Except.ok ⟨"ds:latest", ["ds:latest"], 0⟩ :=
  ⟨(c5_build_profile_idempotent sampleConfig ["ds:latest"] "ds" sampleProfile
      (Except.ok ()) (Except.ok ()) (by decide)).1 (by decide),
    ((c5_build_profile_idempotent sampleConfig [] "ds" sampleProfile
      (Except.ok ()) (Except.ok ()) (by decide)).2 (by decide) rfl).1,
    ((c5_build_profile_idempotent sampleConfig [] "ds" sampleProfile
      (Except.ok ()) (Except.ok ()) (by decide)).2 (by decide) rfl).2⟩

/-- C6: for files with distinct names and arbitrary binary or string content
(string content encoded as bytes), extracting a written name from the archive
built by create_archive yields exactly that file's content bytes, nested path
names included. -/
theorem c6_archive_roundtrip
    (files : List FileEntry) (nm : String) (c : FileContent)
    (hnodup : (files.map (fun f => f.name)).Nodup)
    (hmem : FileEntry.mk nm c ∈ files) :
    extract_file_from_archive (create_archive files) nm
      = Except.ok (encodeContent c) := by
  have hm : (⟨nm, true, encodeContent c⟩ : TarMember) ∈ create_archive files :=
    List.mem_map.mpr ⟨⟨nm, c⟩, hmem, rfl⟩
  have hnames : (create_archive files).map (fun x => x.name)
      = files.map (fun f => f.name) := by
    simp [create_archive]
  have hd2 : ((create_archive files).map (fun x => x.name)).Nodup := by
    rw [hnames]; exact hnodup
  have hfind := archive_find_last (create_archive files) ⟨nm, true, encodeContent c⟩ hd2 hm
  unfold extract_file_from_archive
  rw [hfind]
  rfl

/-- Witness for C6 at a concrete input: two files, one with a nested path
name and binary content including a zero and a newline byte. -/
theorem c6_witness :
    ([(⟨"data/a.bin", FileContent.bytes [0, 255, 10]⟩ : FileEntry),
      ⟨"c.txt", FileContent.bytes [104, 105]⟩].map (fun f => f.name)).Nodup ∧
    extract_file_from_archive
        (create_archive [⟨"data/a.bin", FileContent.bytes [0, 255, 10]⟩,
          ⟨"c.txt", FileContent.bytes [104, 105]⟩]) "data/a.bin"
      = Except.ok [0, 255, 10] :=
  ⟨by decide,
    c6_archive_roundtrip
      [⟨"data/a.bin", FileContent.bytes [0, 255, 10]⟩,
        ⟨"c.txt", FileContent.bytes [104, 105]⟩]
      "data/a.bin" (FileContent.bytes [0, 255, 10]) (by decide) (by decide)⟩

/-- C7: the swallow-and-retry handling of recoverable OS errors exists only
in the legacy helpers — _socket_read returns an empty read and _socket_write
reports zero bytes written for EINTR/EDEADLK/EWOULDBLOCK, so
docker_communicate's loop retries on a later iteration — while
DockerService.exec_command never reaches its own I/O loop at all: every
invocation raises TypeError at the parser construction (docker_client.py
line 85), and the loop body as written (line 111) would in any case break on
a read OSError rather than retry it. -/
theorem c7_recoverable_retry_only_in_legacy_helpers
    (eno : Nat) (heno : eno ∈ ERRNO_RECOVERABLE)
    (cmd : List String) (stdin : Option (List Nat)) (timeout : Nat) :
    socket_read (Except.error eno) = Except.ok (some []) ∧
    socket_write (Except.error eno) = Except.ok 0 ∧
    exec_command (Except.ok ()) cmd stdin timeout
      = Except.error streamParserNoArgTypeError := by
  refine ⟨?_, ?_, rfl⟩
  · simp only [socket_read]
    rw [if_pos heno]
  · simp only [socket_write]
    rw [if_pos heno]

/-- Witness for C7 at the concrete errno EINTR and a concrete call. -/
theorem c7_witness :
    EINTR ∈ ERRNO_RECOVERABLE ∧
    (socket_read (Except.error EINTR) = Except.ok (some []) ∧
     socket_write (Except.error EINTR) = Except.ok 0 ∧
     exec_command (Except.ok ()) ["sh", "-c", "cat"] (some [104, 105]) 10
       = Except.error streamParserNoArgTypeError) :=
  ⟨by decide,
    c7_recoverable_retry_only_in_legacy_helpers EINTR (by decide)
      ["sh", "-c", "cat"] (some [104, 105]) 10⟩

/-- C8 (amended): when the build step executes and the daemon's image build
fails, build_profile re-raises the raw underlying exception unchanged — it is
not wrapped in any sandbox exception type, and no ImageBuildError exists in
exceptions.py. -/
theorem c8_build_failure_reraises_raw
    (cfg : SandboxConfigSpec) (daemon : List String) (nm : String) (p : ProfileSpec)
    (e : PyExc) (hp : get_profile cfg nm = Except.ok p)
    (habs : daemon.contains p.image = false) :
    build_profile cfg daemon nm false (Except.error e) = Except.error e := by
  unfold build_profile
  simp only [hp]
  rw [Bool.not_false, Bool.true_and, habs, if_neg Bool.false_ne_true]

/-- Witness for C8's amended theorem at concrete inputs. -/
theorem c8_witness :
    build_profile sampleConfig [] "ds" false
        (Except.error ⟨"BuildError", "step 3/7 failed"⟩)
      = Except.error ⟨"BuildError", "step 3/7 failed"⟩ :=
  c8_build_failure_reraises_raw sampleConfig [] "ds" sampleProfile
    ⟨"BuildError", "step 3/7 failed"⟩ (by decide) (by decide)

/-- Counterexample to C8 as stated: a failing build propagates the raw
underlying exception — its type is the daemon's "BuildError", not
"ImageBuildError" (which exceptions.py does not define). -/
theorem c8_counterexample :
    build_profile sampleConfig [] "ds" false
        (Except.error ⟨"BuildError", "boom"⟩)
      = Except.error ⟨"BuildError", "boom"⟩ ∧
    ("BuildError" : String) ≠ "ImageBuildError" := by
  constructor
  · exact c8_build_failure_reraises_raw sampleConfig [] "ds" sampleProfile
      ⟨"BuildError", "boom"⟩ (by decide) (by decide)
  · decide

/-- C10: merge_limits_defaults maps an empty or missing limits dict to
DEFAULT_LIMITS, which has no "file_size" key, and create_ulimits applied to
that result raises KeyError("file_size") — the default-limits path through
create_ulimits is not total. -/
theorem c10_default_limits_file_size_keyerror :
    merge_limits_defaults none = DEFAULT_LIMITS ∧
    merge_limits_defaults (some []) = DEFAULT_LIMITS ∧
    DEFAULT_LIMITS.lookup "file_size" = none ∧
    create_ulimits (merge_limits_defaults none) = Except.error "file_size" := by
  refine ⟨rfl, rfl, ?_, ?_⟩
  · decide
  · decide

end DsAgent

